import Mathlib

/- Verification development for the pdfEmbedderAPI repository: a single-slot
   PDF replace-and-serve store backed by MongoDB GridFS. The repository has a
   FastAPI snapshot (src/main.py) and a Flask snapshot (src/app.py); both are
   embedded below. Payloads are byte lists, GridFS is a list of stored files
   with an id counter and a logical clock for upload dates, and endpoint
   handlers are pure functions threading the store state. Python exception
   handling is embedded with Except: a value raised inside a try block is an
   error that the surrounding handler inspects. -/

namespace PdfStore

/-- Bytes of a payload; each entry is one byte value. -/
abbrev Bytes := List Nat

/-- A file stored in GridFS: object id, filename, content type (stored by the
FastAPI snapshot, omitted by the Flask one), the store assigned upload date,
and the payload. -/
structure StoredFile where
  id : Nat
  filename : String
  content_type : Option String
  uploadDate : Nat
  content : Bytes
deriving Repr, DecidableEq

/-- The GridFS `length` attribute of a stored file: its payload byte count. -/
def StoredFile.length (f : StoredFile) : Nat := f.content.length

/-- State of the GridFS bucket: the stored files, a counter supplying fresh
object ids, and a logical clock supplying upload dates. -/
structure GridFS where
  files : List StoredFile
  nextId : Nat
  now : Nat
deriving Repr, DecidableEq

/-- The bucket before the first ever upload. -/
def emptyFS : GridFS := { files := [], nextId := 0, now := 0 }

/-- Models `fs.find()`: enumerates all stored files. -/
def GridFS.find (g : GridFS) : List StoredFile := g.files

/-- Models `fs.delete(id)`: removes the object with the given id. -/
def GridFS.delete (g : GridFS) (i : Nat) : GridFS :=
  { g with files := g.files.filter (fun f => decide (f.id ≠ i)) }

/-- Models `fs.put(stream, filename=..., content_type=...)`: writes a new
object with a fresh id and a fresh, strictly larger upload date; returns the
new id together with the new bucket. -/
def GridFS.put (g : GridFS) (filename : String) (ct : Option String) (content : Bytes) :
    Nat × GridFS :=
  (g.nextId,
   { files := g.files ++
       [{ id := g.nextId, filename := filename, content_type := ct,
          uploadDate := g.now, content := content }],
     nextId := g.nextId + 1,
     now := g.now + 1 })

/-- Models `fs.find().sort("uploadDate", -1).limit(1)` followed by taking the
first element: the stored file with the greatest upload date, or none when
the bucket is empty. This is the read entry point the spec calls `current()`
and `openLatestByCreatedAt()`. -/
def current (g : GridFS) : Option StoredFile :=
  g.files.foldl (fun acc f =>
    match acc with
    | none => some f
    | some m => if m.uploadDate < f.uploadDate then some f else some m) none

/-- Models the delete loop `for old_file in fs.find(): fs.delete(old_file._id)`:
the enumeration is snapshotted and every enumerated id is deleted. -/
def clearAll (g : GridFS) : GridFS :=
  (GridFS.find g).foldl (fun s f => GridFS.delete s f.id) g

/-- Models the ASCII case lowering performed by the Python `str.lower` method
on the characters relevant to filenames. -/
def asciiLower (c : Char) : Char :=
  if 65 ≤ c.toNat ∧ c.toNat ≤ 90 then Char.ofNat (c.toNat + 32) else c

/-- Lowercases a string character by character, as `str.lower` does. -/
def strLower (s : String) : String := String.mk (s.data.map asciiLower)

/-- Models the Python `str.endswith` method: the last characters of `s` equal
`t`. -/
def strEndsWith (s t : String) : Bool :=
  s.data.drop (s.data.length - t.data.length) == t.data

/-- Models the guard `pdf.filename.lower().endswith(".pdf")`. -/
def endsWithPdf (name : String) : Bool := strEndsWith (strLower name) ".pdf"

/-- Models fastapi.HTTPException: a status code and a detail string. -/
structure HTTPExc where
  status_code : Nat
  detail : String
deriving Repr, DecidableEq

/-- Process wide state of the FastAPI snapshot: whether the module level
`client` is non-None, and the GridFS bucket. -/
structure AppState where
  connected : Bool
  fs : GridFS
deriving Repr, DecidableEq

/-- Successful JSON body of POST /upload in the FastAPI snapshot. -/
structure UploadOk where
  message : String
  filename : String
  file_id : Nat
deriving Repr, DecidableEq

/-- Body of `upload_pdf` inside its `try` block: raises HTTPException 400 on
a non pdf filename, otherwise deletes every enumerated file and writes the
new one. -/
def uploadBody (st : AppState) (filename : String) (ct : Option String) (content : Bytes) :
    Except HTTPExc (UploadOk × AppState) :=
  if endsWithPdf filename then
    let g1 := clearAll st.fs
    let (fid, g2) := GridFS.put g1 filename ct content
    .ok ({ message := "PDF uploaded successfully", filename := filename, file_id := fid },
         { st with fs := g2 })
  else
    .error { status_code := 400, detail := "File must be a PDF." }

/-- Models POST /upload of the FastAPI snapshot. The 503 guard runs outside
the `try`; every exception raised inside the `try` block, including the 400
HTTPException, is caught by the blanket `except Exception` clause and
replaced by a 500 HTTPException. Returns the response and the new state. -/
def upload_pdf (st : AppState) (filename : String) (ct : Option String) (content : Bytes) :
    Except HTTPExc UploadOk × AppState :=
  if st.connected then
    match uploadBody st filename ct content with
    | .ok (r, st2) => (.ok r, st2)
    | .error _ =>
        (.error { status_code := 500, detail := "Internal server error during upload" }, st)
  else
    (.error { status_code := 503, detail := "Database not available" }, st)

/-- Models io.BytesIO(...): an in-memory buffer holding a fully materialized
byte string. -/
structure MemBuf where
  buffer : Bytes
deriving Repr, DecidableEq

/-- Models the GridOut `read()` method: returns the entire payload of the
stored file as one byte string. -/
def readAll (f : StoredFile) : Bytes := f.content

/-- Models the StreamingResponse built by GET /latest-pdf: the body buffer
handed to the response, the media type, and the response headers. -/
structure DownloadResp where
  body : MemBuf
  media_type : String
  contentDisposition : String
  contentLength : String
  exposeHeaders : String
deriving Repr, DecidableEq

/-- Body of `get_latest_pdf` inside its `try` block: raises HTTPException 404
when no file is stored, otherwise builds the streaming response from
`io.BytesIO(file.read())` and the header dictionary of the source. -/
def latestBody (st : AppState) : Except HTTPExc DownloadResp :=
  match current st.fs with
  | none => .error { status_code := 404, detail := "No PDF found" }
  | some f =>
      .ok { body := { buffer := readAll f },
            media_type := "application/pdf",
            contentDisposition := "inline; filename=\"" ++ f.filename ++ "\"",
            contentLength := toString (StoredFile.length f),
            exposeHeaders := "Content-Disposition" }

/-- Models GET /latest-pdf of the FastAPI snapshot: the 503 guard runs
outside the `try`; inside, any raised exception, including the 404, is
caught by the blanket `except Exception` clause and replaced by a 500. -/
def get_latest_pdf (st : AppState) : Except HTTPExc DownloadResp :=
  if st.connected then
    match latestBody st with
    | .ok r => .ok r
    | .error _ => .error { status_code := 500, detail := "Internal server error" }
  else
    .error { status_code := 503, detail := "Database not available" }

/-- JSON body of GET /health. -/
structure HealthResp where
  status : String
  database : String
deriving Repr, DecidableEq

/-- Body of `health_check` inside its `try` block: answers unhealthy when
`client` is None; otherwise runs `client.admin.command("ping")`, which either
succeeds or raises. -/
def healthBody (connected pingOk : Bool) : Except Unit HealthResp :=
  if connected then
    if pingOk then .ok { status := "healthy", database := "connected" }
    else .error ()
  else .ok { status := "unhealthy", database := "not connected" }

/-- Models GET /health of the FastAPI snapshot: any exception raised in the
body is caught and downgraded to an unhealthy answer, so the endpoint always
returns a status value. -/
def health_check (connected pingOk : Bool) : HealthResp :=
  match healthBody connected pingOk with
  | .ok r => r
  | .error _ => { status := "unhealthy", database := "connection failed" }

/-- Connection timeout, in milliseconds, passed to MongoClient. -/
def serverSelectionTimeoutMS : Nat := 5000

/-- Connect timeout, in milliseconds, passed to MongoClient. -/
def connectTimeoutMS : Nat := 10000

/-- Socket timeout, in milliseconds, passed to MongoClient. -/
def socketTimeoutMS : Nat := 10000

/-- The fixed retry bound of `get_mongo_client`. -/
def max_retries : Nat := 3

/-- The fixed delay, in seconds, slept between connection attempts. -/
def retry_delay : Nat := 2

/-- Models the retry loop of `get_mongo_client`. `attempts i` tells whether
the i-th connection attempt (MongoClient construction plus ping) succeeds.
The arguments are the index of the current attempt and the number of
attempts still allowed. Returns whether a client was obtained, the number of
attempts made, and the total seconds slept between attempts; on the last
failed attempt the exception is re-raised, which the result records as a
false first component. -/
def connectLoop (attempts : Nat → Bool) : Nat → Nat → Bool × Nat × Nat
  | _, 0 => (false, 0, 0)
  | i, rem + 1 =>
    if attempts i then (true, 1, 0)
    else if rem = 0 then (false, 1, 0)
    else
      let r := connectLoop attempts (i + 1) rem
      (r.1, r.2.1 + 1, r.2.2 + retry_delay)

/-- Models `get_mongo_client`: runs the retry loop from attempt 0 with the
fixed bound `max_retries`. -/
def get_mongo_client (attempts : Nat → Bool) : Bool × Nat × Nat :=
  connectLoop attempts 0 max_retries

/-- Models the module level startup block of the FastAPI snapshot: `client =
get_mongo_client()` inside try/except; on failure the error is logged and
`client` is set to None instead of crashing the process. -/
def startupState (attempts : Nat → Bool) (g : GridFS) : AppState :=
  { connected := (get_mongo_client attempts).1, fs := g }

/-- Models POST /upload of the Flask snapshot (src/app.py): checks only that
the multipart field is present and that the filename is non empty — there is
no extension check — then runs delete-all followed by put. Returns the
(status, message) pair and the new bucket. -/
def flask_upload_pdf (g : GridFS) (pdfPartPresent : Bool) (filename : String) (content : Bytes) :
    (Nat × String) × GridFS :=
  if pdfPartPresent then
    if filename = "" then ((400, "No selected file"), g)
    else
      let g1 := clearAll g
      let g2 := (GridFS.put g1 filename none content).2
      ((200, "PDF uploaded successfully"), g2)
  else ((400, "No PDF part in the request"), g)

/-- Result of GET /latest-pdf in the Flask snapshot. -/
inductive FlaskDownload
  | file (body : MemBuf) (mimetype : String)
  | jsonError (status : Nat) (error : String)
deriving Repr, DecidableEq

/-- Models GET /latest-pdf of the Flask snapshot: send_file over
io.BytesIO(file.read()) for the latest stored file, else a 404 JSON error. -/
def flask_get_latest_pdf (g : GridFS) : FlaskDownload :=
  match current g with
  | some f => .file { buffer := readAll f } "application/pdf"
  | none => .jsonError 404 "No PDF found"

/-- A primitive GridFS mutation issued by the upload handler. -/
inductive StoreOp
  | del (id : Nat)
  | write (filename : String) (ct : Option String) (content : Bytes)
deriving Repr, DecidableEq

/-- Applies one primitive mutation to the bucket. -/
def applyOp (g : GridFS) : StoreOp → GridFS
  | .del i => GridFS.delete g i
  | .write n ct c => (GridFS.put g n ct c).2

/-- Applies a sequence of primitive mutations, left to right. -/
def applyOps (g : GridFS) (ops : List StoreOp) : GridFS := ops.foldl applyOp g

/-- The sequence of GridFS mutations issued by one call of the FastAPI
`upload_pdf`, in program order: no mutation when the request is rejected
before touching the store, otherwise one delete per enumerated file followed
by the single write of the new object. -/
def uploadOps (st : AppState) (filename : String) (ct : Option String) (content : Bytes) :
    List StoreOp :=
  if st.connected then
    if endsWithPdf filename then
      (GridFS.find st.fs).map (fun f => StoreOp.del f.id) ++ [StoreOp.write filename ct content]
    else []
  else []

/-- One upload request: filename, content type, payload. -/
structure UploadReq where
  filename : String
  content_type : Option String
  content : Bytes
deriving Repr, DecidableEq

/-- Runs a sequence of upload requests through the FastAPI handler, threading
the state. -/
def runUploads (st : AppState) (rs : List UploadReq) : AppState :=
  rs.foldl (fun s r => (upload_pdf s r.filename r.content_type r.content).2) st

/-- Folding deletes of the ids of a snapshot list filters the bucket by all
those ids and leaves the counter and clock untouched. -/
theorem foldl_delete_eq (l : List StoredFile) (g : GridFS) :
    l.foldl (fun s f => GridFS.delete s f.id) g
      = { g with files := g.files.filter (fun x => l.all (fun f => decide (x.id ≠ f.id))) } := by
  induction l generalizing g with
  | nil => simp
  | cons e l ih =>
      rw [List.foldl_cons, ih]
      simp only [GridFS.delete]
      congr 1
      rw [List.filter_filter]
      apply List.filter_congr
      intro x _
      simp [Bool.and_comm]

/-- The delete loop of the upload handler empties the bucket. -/
theorem clearAll_eq (g : GridFS) : clearAll g = { g with files := [] } := by
  unfold clearAll GridFS.find
  rw [foldl_delete_eq]
  congr 1
  rw [List.filter_eq_nil_iff]
  intro f hf
  simp only [List.all_eq_true, Bool.not_eq_true]
  intro hall
  have := hall f hf
  simp at this

/-- A successful FastAPI upload returns a 200 body carrying the filename and
the fresh id, and leaves the bucket holding exactly the one new file. -/
theorem upload_pdf_success (st : AppState) (n : String) (ct : Option String) (c : Bytes)
    (hc : st.connected = true) (hn : endsWithPdf n = true) :
    upload_pdf st n ct c =
      (.ok { message := "PDF uploaded successfully", filename := n, file_id := st.fs.nextId },
       { connected := st.connected,
         fs := { files := [{ id := st.fs.nextId, filename := n, content_type := ct,
                             uploadDate := st.fs.now, content := c }],
                 nextId := st.fs.nextId + 1, now := st.fs.now + 1 } }) := by
  simp only [upload_pdf, uploadBody, hc, hn, if_true, clearAll_eq, GridFS.put]
  simp

/-- The upload handler never changes the connection flag. -/
theorem upload_pdf_connected (st : AppState) (n : String) (ct : Option String) (c : Bytes) :
    (upload_pdf st n ct c).2.connected = st.connected := by
  by_cases hc : st.connected
  · by_cases hn : endsWithPdf n
    · simp [upload_pdf, uploadBody, hc, hn]
    · simp [upload_pdf, uploadBody, hc, hn]
  · simp [upload_pdf, hc]

/-- Running any request sequence never changes the connection flag. -/
theorem runUploads_connected (rs : List UploadReq) (st : AppState) :
    (runUploads st rs).connected = st.connected := by
  induction rs generalizing st with
  | nil => rfl
  | cons r rs ih =>
      simp only [runUploads, List.foldl_cons]
      rw [(by rfl : (List.foldl (fun s r => (upload_pdf s r.filename r.content_type r.content).2)
        ((upload_pdf st r.filename r.content_type r.content).2) rs)
          = runUploads (upload_pdf st r.filename r.content_type r.content).2 rs)]
      rw [ih, upload_pdf_connected]

/-- Reading the current document of a one-file bucket yields that file. -/
theorem current_singleton (f : StoredFile) (n c : Nat) :
    current { files := [f], nextId := n, now := c } = some f := rfl

/-- C1: for every sequence of successful uploads, after each upload in the
sequence completes the store contains exactly one document, and the document
retrievable via current() matches the most recently uploaded content and
filename. The upload just completed is `r`, at an arbitrary split position
of the sequence; the state after it is `runUploads st (pre ++ [r])`. -/
theorem c1_single_document_after_each_upload
    (st : AppState) (rs pre post : List UploadReq) (r : UploadReq)
    (hc : st.connected = true)
    (hv : ∀ x ∈ rs, endsWithPdf x.filename = true)
    (hsplit : rs = pre ++ [r] ++ post) :
    ∃ f : StoredFile,
      (runUploads st (pre ++ [r])).fs.files = [f] ∧
      current (runUploads st (pre ++ [r])).fs = some f ∧
      f.filename = r.filename ∧ f.content = r.content := by
  have hr : endsWithPdf r.filename = true := hv r (by simp [hsplit])
  have hconn : (runUploads st pre).connected = true := by
    rw [runUploads_connected]; exact hc
  have hfold : runUploads st (pre ++ [r])
      = (upload_pdf (runUploads st pre) r.filename r.content_type r.content).2 := by
    unfold runUploads
    rw [List.foldl_append]
    rfl
  rw [hfold, upload_pdf_success _ _ _ _ hconn hr]
  exact ⟨_, rfl, current_singleton _ _ _, rfl, rfl⟩

/-- Witness for C1: two uploads on a fresh connected store; after the second
one the store holds exactly the second file. -/
theorem c1_single_document_after_each_upload_witness :
    ∃ f : StoredFile,
      (runUploads { connected := true, fs := emptyFS }
        ([⟨"a.pdf", none, [1]⟩] ++ [⟨"b.pdf", some "application/pdf", [1, 2]⟩])).fs.files = [f] ∧
      current (runUploads { connected := true, fs := emptyFS }
        ([⟨"a.pdf", none, [1]⟩] ++ [⟨"b.pdf", some "application/pdf", [1, 2]⟩])).fs = some f ∧
      f.filename = "b.pdf" ∧ f.content = [1, 2] :=
  c1_single_document_after_each_upload
    { connected := true, fs := emptyFS }
    [⟨"a.pdf", none, [1]⟩, ⟨"b.pdf", some "application/pdf", [1, 2]⟩]
    [⟨"a.pdf", none, [1]⟩] [] ⟨"b.pdf", some "application/pdf", [1, 2]⟩
    rfl (by decide) rfl

/-- Applying a sequence made only of deletes never grows the bucket. -/
theorem all_del_length_le (ops : List StoreOp) (g : GridFS)
    (h : ∀ op ∈ ops, ∃ i, op = StoreOp.del i) :
    (applyOps g ops).files.length ≤ g.files.length := by
  induction ops generalizing g with
  | nil => exact le_rfl
  | cons op ops ih =>
      obtain ⟨i, rfl⟩ := h op (List.mem_cons_self op ops)
      refine le_trans (ih (GridFS.delete g i) ?_) ?_
      · intro x hx; exact h x (List.mem_cons_of_mem _ hx)
      · exact List.length_filter_le _ _

/-- Applying the deletes of every enumerated file is the delete loop. -/
theorem applyOps_dels (g : GridFS) :
    applyOps g ((GridFS.find g).map (fun f => StoreOp.del f.id)) = clearAll g := by
  unfold applyOps clearAll
  rw [List.foldl_map]
  rfl

/-- Coherence of the trace model: replaying the mutation trace of an upload
against the initial bucket yields exactly the bucket the handler returns, in
every case. -/
theorem applyOps_uploadOps (st : AppState) (n : String) (ct : Option String) (c : Bytes) :
    applyOps st.fs (uploadOps st n ct c) = (upload_pdf st n ct c).2.fs := by
  by_cases hc : st.connected
  · by_cases hn : endsWithPdf n
    · simp only [uploadOps, hc, hn, if_true]
      unfold applyOps
      rw [List.foldl_append]
      have hdel := applyOps_dels st.fs
      unfold applyOps at hdel
      rw [hdel]
      simp [upload_pdf, uploadBody, hc, hn, applyOp]
    · simp [uploadOps, upload_pdf, uploadBody, hc, hn, applyOps]
  · simp [uploadOps, upload_pdf, hc, applyOps]

/-- C2: within one accepted upload on a store satisfying the single-slot
invariant, the issued mutation sequence is all deletes followed by the one
write (every non-final operation is a delete and the final operation is the
write), and after every prefix of that sequence at most one document is
visible: no intermediate state shows two documents. -/
theorem c2_delete_then_write_ordering
    (st : AppState) (n : String) (ct : Option String) (c : Bytes)
    (hc : st.connected = true) (hn : endsWithPdf n = true)
    (hinv : st.fs.files.length ≤ 1) :
    (∀ op ∈ (uploadOps st n ct c).dropLast, ∃ i, op = StoreOp.del i) ∧
    (uploadOps st n ct c).getLast? = some (StoreOp.write n ct c) ∧
    (∀ k, (applyOps st.fs ((uploadOps st n ct c).take k)).files.length ≤ 1) := by
  have hops : uploadOps st n ct c
      = (GridFS.find st.fs).map (fun f => StoreOp.del f.id) ++ [StoreOp.write n ct c] := by
    simp [uploadOps, hc, hn]
  refine ⟨?_, ?_, ?_⟩
  · rw [hops]
    intro op hop
    rw [List.dropLast_concat] at hop
    obtain ⟨f, _, rfl⟩ := List.mem_map.mp hop
    exact ⟨f.id, rfl⟩
  · rw [hops]
    simp
  · intro k
    rw [hops]
    by_cases hk : k ≤ ((GridFS.find st.fs).map (fun f => StoreOp.del f.id)).length
    · rw [List.take_append_of_le_length hk]
      refine le_trans (all_del_length_le _ _ ?_) hinv
      intro op hop
      obtain ⟨f, _, rfl⟩ := List.mem_map.mp (List.mem_of_mem_take hop)
      exact ⟨f.id, rfl⟩
    · have hlen : (((GridFS.find st.fs).map (fun f => StoreOp.del f.id))
          ++ [StoreOp.write n ct c]).length ≤ k := by
        rw [List.length_append]
        simp only [not_le] at hk
        simpa using hk
      rw [List.take_of_length_le hlen]
      unfold applyOps
      rw [List.foldl_append]
      have hdel : List.foldl applyOp st.fs ((GridFS.find st.fs).map (fun f => StoreOp.del f.id))
          = clearAll st.fs := applyOps_dels st.fs
      rw [hdel, clearAll_eq]
      simp [applyOp, GridFS.put]

/-- Witness for C2: the concrete mutation trace of uploading b.pdf over a
one-document store is the delete of the old id followed by the write, and
no prefix state ever shows more than one document. -/
theorem c2_delete_then_write_ordering_witness :
    (∀ op ∈ (uploadOps
        { connected := true,
          fs := { files := [{ id := 0, filename := "a.pdf", content_type := none,
                              uploadDate := 0, content := [1] }], nextId := 1, now := 1 } }
        "b.pdf" none [2, 3]).dropLast, ∃ i, op = StoreOp.del i) ∧
    (uploadOps
        { connected := true,
          fs := { files := [{ id := 0, filename := "a.pdf", content_type := none,
                              uploadDate := 0, content := [1] }], nextId := 1, now := 1 } }
        "b.pdf" none [2, 3]).getLast? = some (StoreOp.write "b.pdf" none [2, 3]) ∧
    (∀ k, (applyOps
        { files := [{ id := 0, filename := "a.pdf", content_type := none,
                      uploadDate := 0, content := [1] }], nextId := 1, now := 1 }
        ((uploadOps
          { connected := true,
            fs := { files := [{ id := 0, filename := "a.pdf", content_type := none,
                                uploadDate := 0, content := [1] }], nextId := 1, now := 1 } }
          "b.pdf" none [2, 3]).take k)).files.length ≤ 1) :=
  c2_delete_then_write_ordering
    { connected := true,
      fs := { files := [{ id := 0, filename := "a.pdf", content_type := none,
                          uploadDate := 0, content := [1] }], nextId := 1, now := 1 } }
    "b.pdf" none [2, 3] rfl (by decide) (by decide)

/-- C3: evaluation of both snapshots at the inputs of the claim. The FastAPI
snapshot accepts a mixed case "report.PDF" upload with a 200 body; a
"report.txt" upload is rejected, but the client sees status 500, not 400:
the body raises HTTPException 400, and the blanket `except Exception` clause
of the handler catches it and replaces it by a 500. The Flask snapshot has
no extension check at all and accepts "report.txt" with status 200. -/
theorem c3_extension_rejection_evaluation :
    (upload_pdf { connected := true, fs := emptyFS } "report.PDF" none [1]).1 =
      .ok { message := "PDF uploaded successfully", filename := "report.PDF", file_id := 0 } ∧
    uploadBody { connected := true, fs := emptyFS } "report.txt" none [1] =
      .error { status_code := 400, detail := "File must be a PDF." } ∧
    (upload_pdf { connected := true, fs := emptyFS } "report.txt" none [1]).1 =
      .error { status_code := 500, detail := "Internal server error during upload" } ∧
    (flask_upload_pdf emptyFS true "report.txt" [1]).1 = (200, "PDF uploaded successfully") :=
  ⟨rfl, rfl, rfl, rfl⟩

/-- C4: evaluation at the empty store. current() yields none and the handler
body raises HTTPException 404, but in the FastAPI snapshot the blanket
`except Exception` clause catches that 404 and replaces it by a 500, so the
client sees 500, not 404. The Flask snapshot returns the 404 JSON error. -/
theorem c4_empty_store_evaluation :
    current emptyFS = none ∧
    latestBody { connected := true, fs := emptyFS } =
      .error { status_code := 404, detail := "No PDF found" } ∧
    get_latest_pdf { connected := true, fs := emptyFS } =
      .error { status_code := 500, detail := "Internal server error" } ∧
    flask_get_latest_pdf emptyFS = FlaskDownload.jsonError 404 "No PDF found" :=
  ⟨rfl, rfl, rfl, rfl⟩

/-- C5: whenever the client handle is None, POST /upload answers 503 without
touching the store and GET /health reports unhealthy. -/
theorem c5_disconnected_rejects_upload_and_unhealthy
    (st : AppState) (n : String) (ct : Option String) (c : Bytes) (p : Bool)
    (hc : st.connected = false) :
    (upload_pdf st n ct c).1 =
      .error { status_code := 503, detail := "Database not available" } ∧
    (upload_pdf st n ct c).2 = st ∧
    health_check st.connected p = { status := "unhealthy", database := "not connected" } := by
  refine ⟨?_, ?_, ?_⟩ <;> simp [upload_pdf, health_check, healthBody, hc]

/-- Witness for C5: a disconnected fresh state at a concrete request. -/
theorem c5_disconnected_rejects_upload_and_unhealthy_witness :
    (upload_pdf { connected := false, fs := emptyFS } "a.pdf" none [1]).1 =
      .error { status_code := 503, detail := "Database not available" } ∧
    (upload_pdf { connected := false, fs := emptyFS } "a.pdf" none [1]).2 =
      { connected := false, fs := emptyFS } ∧
    health_check (AppState.connected { connected := false, fs := emptyFS }) true =
      { status := "unhealthy", database := "not connected" } :=
  c5_disconnected_rejects_upload_and_unhealthy
    { connected := false, fs := emptyFS } "a.pdf" none [1] true rfl

/-- C6: the health check is a total function — it always returns a status,
which is healthy or unhealthy — and it is healthy exactly when the client
handle exists and the ping succeeds; a raising ping is downgraded to
unhealthy by the catch clause. -/
theorem c6_health_check_total_and_healthy_iff (connected pingOk : Bool) :
    ((health_check connected pingOk).status = "healthy"
        ↔ connected = true ∧ pingOk = true) ∧
    ((health_check connected pingOk).status = "healthy" ∨
      (health_check connected pingOk).status = "unhealthy") := by
  cases connected <;> cases pingOk <;> simp [health_check, healthBody]

/-- C7: when all three connection attempts fail, get_mongo_client makes
exactly max_retries = 3 attempts separated by retry_delay = 2 seconds (4
seconds slept in total), propagates the failure instead of swallowing it,
and the startup block leaves the process alive with client = None, so a
later upload request is answered with 503; the MongoClient timeouts are the
fixed bounded values of the source. -/
theorem c7_connect_retry_bounded_then_unavailable
    (attempts : Nat → Bool) (g : GridFS)
    (h0 : attempts 0 = false) (h1 : attempts 1 = false) (h2 : attempts 2 = false) :
    get_mongo_client attempts = (false, max_retries, (max_retries - 1) * retry_delay) ∧
    (startupState attempts g).connected = false ∧
    (upload_pdf (startupState attempts g) "a.pdf" none []).1 =
      .error { status_code := 503, detail := "Database not available" } ∧
    max_retries = 3 ∧ retry_delay = 2 ∧
    serverSelectionTimeoutMS = 5000 ∧ connectTimeoutMS = 10000 ∧ socketTimeoutMS = 10000 := by
  have hg : get_mongo_client attempts = (false, 3, 4) := by
    simp [get_mongo_client, connectLoop, max_retries, retry_delay, h0, h1, h2]
  refine ⟨by rw [hg]; rfl, ?_, ?_, rfl, rfl, rfl, rfl, rfl⟩
  · simp [startupState, hg]
  · simp [upload_pdf, startupState, hg]

/-- Witness for C7: the always-failing attempt function. -/
theorem c7_connect_retry_bounded_then_unavailable_witness :
    get_mongo_client (fun _ => false) = (false, max_retries, (max_retries - 1) * retry_delay) ∧
    (startupState (fun _ => false) emptyFS).connected = false ∧
    (upload_pdf (startupState (fun _ => false) emptyFS) "a.pdf" none []).1 =
      .error { status_code := 503, detail := "Database not available" } ∧
    max_retries = 3 ∧ retry_delay = 2 ∧
    serverSelectionTimeoutMS = 5000 ∧ connectTimeoutMS = 10000 ∧ socketTimeoutMS = 10000 :=
  c7_connect_retry_bounded_then_unavailable (fun _ => false) emptyFS rfl rfl rfl

/-- C8: a write (via an accepted upload) followed immediately by the read
entry point returns a document whose size is the exact byte length of the
written payload, and the download response advertises exactly that length
in its Content-Length header. -/
theorem c8_roundtrip_size_exact
    (st : AppState) (n : String) (ct : Option String) (c : Bytes)
    (hc : st.connected = true) (hn : endsWithPdf n = true) :
    ∃ f : StoredFile,
      current (upload_pdf st n ct c).2.fs = some f ∧
      StoredFile.length f = c.length ∧
      get_latest_pdf (upload_pdf st n ct c).2 = .ok
        { body := { buffer := readAll f },
          media_type := "application/pdf",
          contentDisposition := "inline; filename=\"" ++ f.filename ++ "\"",
          contentLength := toString c.length,
          exposeHeaders := "Content-Disposition" } := by
  rw [upload_pdf_success st n ct c hc hn]
  refine ⟨_, current_singleton _ _ _, rfl, ?_⟩
  simp only [get_latest_pdf, hc, if_true, latestBody, current_singleton]
  rfl

/-- Witness for C8: a three byte upload on a fresh connected store is read
back with size 3 and Content-Length "3". -/
theorem c8_roundtrip_size_exact_witness :
    ∃ f : StoredFile,
      current (upload_pdf { connected := true, fs := emptyFS }
        "a.pdf" none [7, 8, 9]).2.fs = some f ∧
      StoredFile.length f = 3 ∧
      get_latest_pdf (upload_pdf { connected := true, fs := emptyFS }
        "a.pdf" none [7, 8, 9]).2 = .ok
        { body := { buffer := readAll f },
          media_type := "application/pdf",
          contentDisposition := "inline; filename=\"" ++ f.filename ++ "\"",
          contentLength := toString (3 : Nat),
          exposeHeaders := "Content-Disposition" } :=
  c8_roundtrip_size_exact { connected := true, fs := emptyFS }
    "a.pdf" none [7, 8, 9] rfl (by decide)

/-- Formalization of the C9 claim sentence, following the spec wording, for
comparison with the source: on a successful download the buffer handed to
the response holds fewer bytes than the full payload of the current
document, i.e. the payload is never materialized fully in memory on the
serving path. -/
def specNoFullBuffering (st : AppState) : Prop :=
  match get_latest_pdf st, current st.fs with
  | .ok r, some f => r.body.buffer.length < f.content.length
  | _, _ => True

/-- Counterexample for C9: serving a three byte document materializes all
three bytes — file.read() returns the whole payload and io.BytesIO holds it
in memory — so the buffered byte count equals the payload size. -/
theorem c9_no_full_buffering_counterexample :
    ¬ specNoFullBuffering
      { connected := true,
        fs := { files := [{ id := 0, filename := "a.pdf", content_type := none,
                            uploadDate := 0, content := [1, 2, 3] }],
                nextId := 1, now := 1 } } :=
  fun h => Nat.lt_irrefl 3 h

/-- C9 amended: on the serving path the stored payload IS materialized fully
in memory: whichever snapshot serves it, the buffer handed to the streaming
response (io.BytesIO(file.read())) holds the entire payload of the current
document. -/
theorem c9_serving_buffers_entire_payload
    (st : AppState) (f : StoredFile)
    (hc : st.connected = true) (hf : current st.fs = some f) :
    (∃ r : DownloadResp, get_latest_pdf st = .ok r ∧ r.body.buffer = f.content) ∧
    flask_get_latest_pdf st.fs =
      FlaskDownload.file { buffer := f.content } "application/pdf" := by
  constructor
  · refine ⟨{ body := { buffer := readAll f }, media_type := "application/pdf",
              contentDisposition := "inline; filename=\"" ++ f.filename ++ "\"",
              contentLength := toString (StoredFile.length f),
              exposeHeaders := "Content-Disposition" }, ?_, rfl⟩
    simp [get_latest_pdf, hc, latestBody, hf]
  · simp [flask_get_latest_pdf, hf, readAll]

/-- Witness for C9 amended: the one-document store of the counterexample. -/
theorem c9_serving_buffers_entire_payload_witness :
    (∃ r : DownloadResp,
      get_latest_pdf
        { connected := true,
          fs := { files := [{ id := 0, filename := "a.pdf", content_type := none,
                              uploadDate := 0, content := [1, 2, 3] }],
                  nextId := 1, now := 1 } } = .ok r ∧
      r.body.buffer = [1, 2, 3]) ∧
    flask_get_latest_pdf
      { files := [{ id := 0, filename := "a.pdf", content_type := none,
                    uploadDate := 0, content := [1, 2, 3] }],
        nextId := 1, now := 1 } =
      FlaskDownload.file { buffer := [1, 2, 3] } "application/pdf" :=
  c9_serving_buffers_entire_payload
    { connected := true,
      fs := { files := [{ id := 0, filename := "a.pdf", content_type := none,
                          uploadDate := 0, content := [1, 2, 3] }],
              nextId := 1, now := 1 } }
    { id := 0, filename := "a.pdf", content_type := none,
      uploadDate := 0, content := [1, 2, 3] }
    rfl rfl

/-- C10: an upload rejected for its extension issues no delete and no write
against the store — its mutation trace is empty — and leaves the state
unchanged; the client sees an error response. -/
theorem c10_rejected_upload_leaves_store_unchanged
    (st : AppState) (n : String) (ct : Option String) (c : Bytes)
    (hc : st.connected = true) (hn : endsWithPdf n = false) :
    uploadOps st n ct c = [] ∧
    (upload_pdf st n ct c).2 = st ∧
    (upload_pdf st n ct c).1 =
      .error { status_code := 500, detail := "Internal server error during upload" } := by
  refine ⟨?_, ?_, ?_⟩ <;> simp [uploadOps, upload_pdf, uploadBody, hc, hn]

/-- Witness for C10: a report.txt upload against a one-document store. -/
theorem c10_rejected_upload_leaves_store_unchanged_witness :
    uploadOps
      { connected := true,
        fs := { files := [{ id := 0, filename := "a.pdf", content_type := none,
                            uploadDate := 0, content := [1] }], nextId := 1, now := 1 } }
      "report.txt" none [2] = [] ∧
    (upload_pdf
      { connected := true,
        fs := { files := [{ id := 0, filename := "a.pdf", content_type := none,
                            uploadDate := 0, content := [1] }], nextId := 1, now := 1 } }
      "report.txt" none [2]).2 =
      { connected := true,
        fs := { files := [{ id := 0, filename := "a.pdf", content_type := none,
                            uploadDate := 0, content := [1] }], nextId := 1, now := 1 } } ∧
    (upload_pdf
      { connected := true,
        fs := { files := [{ id := 0, filename := "a.pdf", content_type := none,
                            uploadDate := 0, content := [1] }], nextId := 1, now := 1 } }
      "report.txt" none [2]).1 =
      .error { status_code := 500, detail := "Internal server error during upload" } :=
  c10_rejected_upload_leaves_store_unchanged
    { connected := true,
      fs := { files := [{ id := 0, filename := "a.pdf", content_type := none,
                          uploadDate := 0, content := [1] }], nextId := 1, now := 1 } }
    "report.txt" none [2] rfl (by decide)

example : endsWithPdf "report.PDF" = true := by decide

example : endsWithPdf "report.txt" = false := by decide

example :
    (upload_pdf { connected := true, fs := emptyFS } "a.pdf" none [1, 2, 3]).2.fs.files =
      [{ id := 0, filename := "a.pdf", content_type := none, uploadDate := 0,
         content := [1, 2, 3] }] := by decide

example :
    (upload_pdf { connected := true, fs := emptyFS } "report.txt" none [1]).1 =
      .error { status_code := 500, detail := "Internal server error during upload" } := by
  rfl

example :
    get_latest_pdf { connected := true, fs := emptyFS } =
      .error { status_code := 500, detail := "Internal server error" } := by rfl

end PdfStore
